import Mathlib

/-!
# Shallow embedding of `src/cepik_client.py`

The source is a thin HTTP client for the moj.gov.pl vehicle-history
service: five top-level functions (`create_session`, `authenticate_session`,
`close_session`, `get_vehicle_data`, `get_timeline_data`) that each send a
single HTTP request and post-process the response.

Embedding conventions:
* A Python `dict[str, str]` is an association list with insertion order and
  no duplicate keys; `dictInsert` models `d[k] = v` (update the existing
  entry in place, else append), `dictLookup` models `d[k]` / `d.get(k)`,
  `dictContains` models `k in d`.
* The network is an oracle: each embedded function takes the `Response` the
  remote server would return and also yields the list of `Request` values it
  actually sent (the trace), so "a request was sent" is observable.
* `r.json()` is modelled by the `jsonBody` field of the response, a
  top-level JSON object (the only shape the client's `in` checks support).
* Python exceptions become `Except PyError`.  The source raises bare
  `Exception` values whose distinct message per raise site is the spec's
  five-kind taxonomy (`SessionCreationError`, `AuthenticationError`,
  `FetchError`, `MissingFieldError`, `SessionClosureError`); each raise
  site is mapped to the corresponding `CepikError` constructor carrying the
  status code (or missing key) interpolated into the source's message.
  The unguarded dictionary subscript `session["XSRF-TOKEN"]` raises a
  Python `KeyError`, modelled by `PyError.keyError`.
* `time.time()` (wall clock) is an oracle as well: the millisecond reading
  the call observes is an explicit `nowMs` argument, already rounded to an
  integer as `int(round(time.time() * 1000))` does.
* `authenticate_session` mutates its `session` argument in place (the local
  `cookies` is an alias of it); the embedding therefore returns the
  post-call state of the caller's dictionary alongside the normal result.
-/

namespace Cepik

/-- Python `dict[str, str]`: association list in insertion order. -/
abbrev Dict := List (String × String)

/-- `k in d` for a Python dict. -/
def dictContains (d : Dict) (k : String) : Bool :=
  d.any (fun p => p.1 == k)

/-- `d.get(k)` for a Python dict: value of the (unique) entry named `k`. -/
def dictLookup (d : Dict) (k : String) : Option String :=
  (d.find? (fun p => p.1 == k)).map (fun p => p.2)

/-- `d[k] = v` for a Python dict: overwrite the existing entry in place
(keeping its position), else append a new entry at the end. -/
def dictInsert (d : Dict) (k v : String) : Dict :=
  if dictContains d k then d.map (fun p => if p.1 == k then (k, v) else p)
  else d ++ [(k, v)]

/-- Minimal JSON values, enough for the bodies this client builds and
inspects. -/
inductive Json where
  | null
  | bool (b : Bool)
  | num (n : Int)
  | str (s : String)
  | arr (elems : List Json)
  | obj (fields : List (String × Json))

/-- A top-level JSON object, as returned by `r.json()` for this service. -/
abbrev JsonObj := List (String × Json)

/-- `k in response_data` for a parsed JSON object. -/
def jsonHas (o : JsonObj) (k : String) : Bool :=
  o.any (fun p => p.1 == k)

/-- Body of an outgoing request: nothing (GET), a form-encoded string
(`data=...`), or a JSON object (`json=...`). -/
inductive ReqBody where
  | empty
  | form (data : String)
  | json (fields : JsonObj)

/-- One HTTP request as the client hands it to `requests`. -/
structure Request where
  method : String
  url : String
  headers : Dict
  cookies : Dict
  body : ReqBody

/-- The parts of an HTTP response this client reads: `r.status_code`,
`r.cookies.get_dict()` and `r.json()`. -/
structure Response where
  status : Nat
  cookies : Dict
  jsonBody : JsonObj

/-- The spec's five-kind error taxonomy; each constructor corresponds to one
distinct raise site (message) in the source and carries the datum that the
source interpolates into (or that identifies) its message. -/
inductive CepikError where
  | sessionCreationError (status : Nat)
  | authenticationError (status : Nat)
  | fetchError (status : Nat)
  | missingFieldError (key : String)
  | sessionClosureError (status : Nat)

/-- A Python exception escaping one of the client functions: either one of
the deliberately raised `Exception`s above, or the `KeyError` from the
unguarded subscript `session["XSRF-TOKEN"]`. -/
inductive PyError where
  | keyError (key : String)
  | raised (e : CepikError)

/-- `get_current_time`: `int(round(time.time() * 1000))`.  The float clock
and its rounding live in the oracle; the embedded function receives the
already-rounded millisecond reading. -/
def get_current_time (nowMs : Nat) : Nat := nowMs

/-- The service entry URL used by `create_session` and
`authenticate_session`. -/
def entryUrl : String :=
  "https://moj.gov.pl/uslugi/engine/ng/index?xFormsAppName=HistoriaPojazdu"

/-- `create_session`: GET the entry URL; on 200 return the response cookies,
otherwise raise (`Failed to create session, status code: ...`). -/
def create_session (resp : Response) : List Request × Except PyError Dict :=
  let req : Request :=
    { method := "GET", url := entryUrl, headers := [], cookies := [],
      body := .empty }
  if resp.status = 200 then
    ([req], .ok resp.cookies)
  else
    ([req], .error (.raised (.sessionCreationError resp.status)))

/-- `f"HistoriaPojazdu:{current_time}"`: the NF_WID session identifier built
from a millisecond clock reading. -/
def nfwidOf (current_time : Nat) : String :=
  "HistoriaPojazdu:" ++ Nat.repr current_time

/-- First merge loop of `authenticate_session`
(`for cookie in response_cookies: cookies[cookie] = response_cookies[cookie]`):
fold the response cookies into the session dict, new value winning. -/
def mergeLoop (cookies response_cookies : Dict) : Dict :=
  response_cookies.foldl (fun acc p => dictInsert acc p.1 p.2) cookies

/-- Second loop of `authenticate_session`
(`for cookie_key in session.keys(): if cookie_key not in response_cookies:
cookies[cookie_key] = session[cookie_key]`).  Since `cookies` *is*
`session` (the alias created by `cookies = session`), the loop runs over the
keys of the already-merged dict `d` and re-assigns each key absent from the
response to its current value; a key unexpectedly absent from the dict would
raise `KeyError` in Python, which cannot happen because the iterated keys
come from the dict itself (the `none` branch is that unreachable case). -/
def restoreLoop (d response_cookies : Dict) : Dict :=
  (d.map (fun p => p.1)).foldl
    (fun acc k =>
      if dictContains response_cookies k then acc
      else
        match dictLookup acc k with
        | some v => dictInsert acc k v
        | none => acc)
    d

/-- The complete cookie update `authenticate_session` performs on the shared
`session`/`cookies` dict when the POST returns 200. -/
def authMergeCookies (session response_cookies : Dict) : Dict :=
  restoreLoop (mergeLoop session response_cookies) response_cookies

/-- The POST request `authenticate_session` sends. -/
def authRequest (session : Dict) (nfwid : String) : Request :=
  { method := "POST", url := entryUrl,
    headers := [("Accept-Language", "pl-PL,pl;q=0.9"),
                ("Content-Type", "application/x-www-form-urlencoded")],
    cookies := session,
    body := .form ("NF_WID=" ++ nfwid) }

/-- `authenticate_session`: generate the NF_WID from the current time, POST
it to the entry URL with the current cookies; on 200 merge the response
cookies into the (aliased, mutated in place) session dict and return it with
the NF_WID, otherwise raise
(`Failed to authenticate session, status code: ...`).  The middle component
of the result is the post-call state of the caller's `session` dict. -/
def authenticate_session (session : Dict) (nowMs : Nat) (resp : Response) :
    List Request × Dict × Except PyError (Dict × String) :=
  let current_time := get_current_time nowMs
  let nfwid := nfwidOf current_time
  let req := authRequest session nfwid
  if resp.status = 200 then
    let merged := authMergeCookies session resp.cookies
    ([req], merged, .ok (merged, nfwid))
  else
    ([req], session, .error (.raised (.authenticationError resp.status)))

/-- The session-close endpoint URL. -/
def closeUrl : String :=
  "https://moj.gov.pl/nforms/api/HistoriaPojazdu/1.0.17/close"

/-- `close_session`: GET the close endpoint with the NF_WID header; on 200
print a success message and return, otherwise raise
(`Failed to close session, status code: ...`). -/
def close_session (session : Dict) (nf_wid : String) (resp : Response) :
    List Request × Except PyError Unit :=
  let req : Request :=
    { method := "GET", url := closeUrl,
      headers := [("Accept-Language", "pl-PL,pl;q=0.9"),
                  ("Content-Type", "application/json, text/plain, */*"),
                  ("Nf_wid", nf_wid)],
      cookies := session, body := .empty }
  if resp.status = 200 then ([req], .ok ())
  else ([req], .error (.raised (.sessionClosureError resp.status)))

/-- The vehicle-data endpoint URL. -/
def vehicleDataUrl : String :=
  "https://moj.gov.pl/nforms/api/HistoriaPojazdu/1.0.17/data/vehicle-data"

/-- The timeline-data endpoint URL. -/
def timelineDataUrl : String :=
  "https://moj.gov.pl/nforms/api/HistoriaPojazdu/1.0.17/data/timeline-data"

/-- The JSON body both data fetchers build from the vehicle query. -/
def queryBody (registration_number vin_number first_registration_date :
    String) : JsonObj :=
  [("registrationNumber", .str registration_number),
   ("VINNumber", .str vin_number),
   ("firstRegistrationDate", .str first_registration_date)]

/-- `get_vehicle_data`: build headers (reading `session["XSRF-TOKEN"]`,
which raises `KeyError` before any request is sent when absent), POST the
three query fields as JSON; on 200 return the parsed body if it has key
`technicalData`, else raise (`Technical data not found in the response.`);
on any other status raise
(`Failed to get vehicle data, status code: ...`). -/
def get_vehicle_data (session : Dict) (nf_wid registration_number vin_number
    first_registration_date : String) (resp : Response) :
    List Request × Except PyError JsonObj :=
  match dictLookup session "XSRF-TOKEN" with
  | none => ([], .error (.keyError "XSRF-TOKEN"))
  | some xsrf =>
    let req : Request :=
      { method := "POST", url := vehicleDataUrl,
        headers := [("Accept-Language", "pl-PL,pl;q=0.9"),
                    ("Content-Type", "application/json"),
                    ("X-Xsrf-Token", xsrf),
                    ("Nf_wid", nf_wid)],
        cookies := session,
        body := .json (queryBody registration_number vin_number
          first_registration_date) }
    if resp.status = 200 then
      if jsonHas resp.jsonBody "technicalData" then ([req], .ok resp.jsonBody)
      else ([req], .error (.raised (.missingFieldError "technicalData")))
    else ([req], .error (.raised (.fetchError resp.status)))

/-- `get_timeline_data`: identical to `get_vehicle_data` except for the
endpoint URL, the required key `timelineData`, and the raise messages
(`Timeline data not found in the response.` /
`Failed to get timeline data, status code: ...`). -/
def get_timeline_data (session : Dict) (nf_wid registration_number vin_number
    first_registration_date : String) (resp : Response) :
    List Request × Except PyError JsonObj :=
  match dictLookup session "XSRF-TOKEN" with
  | none => ([], .error (.keyError "XSRF-TOKEN"))
  | some xsrf =>
    let req : Request :=
      { method := "POST", url := timelineDataUrl,
        headers := [("Accept-Language", "pl-PL,pl;q=0.9"),
                    ("Content-Type", "application/json"),
                    ("X-Xsrf-Token", xsrf),
                    ("Nf_wid", nf_wid)],
        cookies := session,
        body := .json (queryBody registration_number vin_number
          first_registration_date) }
    if resp.status = 200 then
      if jsonHas resp.jsonBody "timelineData" then ([req], .ok resp.jsonBody)
      else ([req], .error (.raised (.missingFieldError "timelineData")))
    else ([req], .error (.raised (.fetchError resp.status)))

/-- The NF_WID a successful `authenticate_session` call hands back, `none`
when the call raised. -/
def authSessionId (session : Dict) (nowMs : Nat) (resp : Response) :
    Option String :=
  match (authenticate_session session nowMs resp).2.2 with
  | .ok r => some r.2
  | .error _ => none

end Cepik

namespace Cepik

/-! ## Dictionary lemmas -/

theorem dictLookup_nil (k : String) : dictLookup [] k = none := rfl

theorem dictLookup_cons (p : String × String) (d : Dict) (k : String) :
    dictLookup (p :: d) k = if p.1 = k then some p.2 else dictLookup d k := by
  by_cases h : p.1 = k
  · simp [dictLookup, h]
  · simp [dictLookup, List.find?_cons_of_neg, h]

theorem dictLookup_eq_none_iff (d : Dict) (k : String) :
    dictLookup d k = none ↔ dictContains d k = false := by
  simp [dictLookup, dictContains, List.find?_eq_none]

theorem dictContains_of_lookup_some (d : Dict) (k v : String)
    (h : dictLookup d k = some v) : dictContains d k = true := by
  by_cases hc : dictContains d k = true
  · exact hc
  · rw [(dictLookup_eq_none_iff d k).2 (by simpa using hc)] at h
    cases h

theorem dictLookup_append (d₁ d₂ : Dict) (k : String) :
    dictLookup (d₁ ++ d₂) k = (dictLookup d₁ k).or (dictLookup d₂ k) := by
  simp only [dictLookup, List.find?_append]
  cases List.find? (fun p => p.1 == k) d₁ <;> simp

theorem dictLookup_insert (d : Dict) (k v k' : String) :
    dictLookup (dictInsert d k v) k' =
      if k' = k then some v else dictLookup d k' := by
  unfold dictInsert
  by_cases hc : dictContains d k
  · rw [if_pos hc]
    have hpred : ((fun p : String × String => p.1 == k') ∘
        (fun p => if p.1 == k then (k, v) else p)) =
        fun p : String × String => p.1 == k' := by
      funext p
      by_cases h : p.1 = k <;> simp [h]
    by_cases hk : k' = k
    · subst hk
      obtain ⟨q, hq, hqk⟩ : ∃ q, q ∈ d ∧ q.1 = k' := by
        simpa [dictContains] using hc
      have hsome : (List.find? (fun p : String × String => p.1 == k') d).isSome := by
        rw [List.find?_isSome]
        exact ⟨q, hq, by simp [hqk]⟩
      obtain ⟨r, hr⟩ := Option.isSome_iff_exists.1 hsome
      have hrk : r.1 = k' := by simpa using List.find?_some hr
      simp only [dictLookup, List.find?_map, hpred, hr, if_pos rfl]
      simp [hrk]
    · rw [if_neg hk]
      simp only [dictLookup, List.find?_map, hpred]
      cases hfind : List.find? (fun p : String × String => p.1 == k') d with
      | none => simp
      | some r =>
        have hrk : r.1 = k' := by simpa using List.find?_some hfind
        have hne : r.1 ≠ k := fun h => hk (hrk.symm.trans h)
        simp [hne]
  · rw [if_neg hc]
    rw [dictLookup_append]
    by_cases hk : k' = k
    · subst hk
      have hnone : dictLookup d k' = none := by
        rw [dictLookup_eq_none_iff]
        simpa using hc
      simp [hnone, dictLookup_cons]
    · have hone : dictLookup [(k, v)] k' = none := by
        rw [dictLookup_cons, if_neg (fun h : k = k' => hk h.symm)]
        rfl
      simp [hone, hk]

theorem dictInsert_keys (d : Dict) (k v : String) :
    (dictInsert d k v).map (fun p => p.1) =
      if dictContains d k then d.map (fun p => p.1)
      else d.map (fun p => p.1) ++ [k] := by
  unfold dictInsert
  by_cases hc : dictContains d k
  · rw [if_pos hc, if_pos hc, List.map_map]
    apply List.map_congr_left
    intro p _
    by_cases h : p.1 = k <;> simp [h]
  · rw [if_neg hc, if_neg hc]
    simp

theorem dictInsert_keys_nodup (d : Dict) (k v : String)
    (h : (d.map (fun p => p.1)).Nodup) :
    ((dictInsert d k v).map (fun p => p.1)).Nodup := by
  rw [dictInsert_keys]
  by_cases hc : dictContains d k
  · simpa [hc] using h
  · rw [if_neg hc]
    have hk : k ∉ d.map (fun p => p.1) := by
      intro hmem
      apply hc
      simp only [dictContains, List.any_eq_true]
      obtain ⟨p, hp, hpk⟩ := List.mem_map.1 hmem
      exact ⟨p, hp, by simp [hpk]⟩
    simp [List.nodup_append, hk, h]

end Cepik

namespace Cepik

/-! ## Cookie-merge lemmas -/

theorem mergeLoop_cons (d : Dict) (p : String × String) (rest : Dict) :
    mergeLoop d (p :: rest) = mergeLoop (dictInsert d p.1 p.2) rest := rfl

theorem dictLookup_mergeLoop (resp : Dict) : ∀ (d : Dict) (k : String),
    dictLookup (mergeLoop d resp) k =
      (dictLookup resp.reverse k).or (dictLookup d k) := by
  induction resp with
  | nil =>
    intro d k
    simp [mergeLoop, dictLookup_nil]
  | cons p rest ih =>
    intro d k
    rw [mergeLoop_cons, ih, List.reverse_cons, dictLookup_append,
      dictLookup_insert]
    by_cases hk : k = p.1
    · have h1 : dictLookup [p] k = some p.2 := by
        rw [dictLookup_cons, if_pos hk.symm]
      rw [if_pos hk, h1]
      cases dictLookup rest.reverse k <;> simp
    · have h1 : dictLookup [p] k = none := by
        rw [dictLookup_cons, if_neg (fun h : p.1 = k => hk h.symm)]
        rfl
      rw [if_neg hk, h1]
      cases dictLookup rest.reverse k <;> simp

theorem dictContains_eq_false_of_not_mem (d : Dict) (k : String)
    (h : k ∉ d.map (fun p => p.1)) : dictContains d k = false := by
  rw [← Bool.not_eq_true]
  intro habs
  obtain ⟨p, hp, hpk⟩ := List.any_eq_true.1 habs
  exact h (List.mem_map.2 ⟨p, hp, by simpa using hpk⟩)

theorem dictLookup_reverse (d : Dict) (k : String)
    (h : (d.map (fun p => p.1)).Nodup) :
    dictLookup d.reverse k = dictLookup d k := by
  induction d with
  | nil => rfl
  | cons p rest ih =>
    have hcons : (p.1 :: rest.map (fun q => q.1)).Nodup := by simpa using h
    have h1 : p.1 ∉ rest.map (fun q => q.1) := (List.nodup_cons.1 hcons).1
    have h2 := (List.nodup_cons.1 hcons).2
    rw [List.reverse_cons, dictLookup_append, ih h2]
    by_cases hk : p.1 = k
    · subst hk
      have hnone : dictLookup rest p.1 = none := by
        rw [dictLookup_eq_none_iff]
        exact dictContains_eq_false_of_not_mem rest p.1 h1
      have hone : dictLookup [p] p.1 = some p.2 := by
        rw [dictLookup_cons, if_pos rfl]
      rw [hnone, hone, dictLookup_cons, if_pos rfl]
      rfl
    · have hone : dictLookup [p] k = none := by
        rw [dictLookup_cons, if_neg hk]
        rfl
      rw [hone, dictLookup_cons, if_neg hk]
      cases dictLookup rest k <;> rfl

theorem dictLookup_of_mem (d : Dict) (p : String × String)
    (h : (d.map (fun q => q.1)).Nodup) (hp : p ∈ d) :
    dictLookup d p.1 = some p.2 := by
  induction d with
  | nil => cases hp
  | cons q rest ih =>
    have hcons : (q.1 :: rest.map (fun r => r.1)).Nodup := by simpa using h
    rw [dictLookup_cons]
    rcases List.mem_cons.1 hp with rfl | hmem
    · simp
    · have hq1 : q.1 ∉ rest.map (fun r => r.1) := (List.nodup_cons.1 hcons).1
      have hne : ¬ q.1 = p.1 := by
        intro he
        exact hq1 (he ▸ List.mem_map.2 ⟨p, hmem, rfl⟩)
      rw [if_neg hne]
      exact ih (List.nodup_cons.1 hcons).2 hmem

theorem dictInsert_self (d : Dict) (k v : String)
    (h : (d.map (fun p => p.1)).Nodup) (hv : dictLookup d k = some v) :
    dictInsert d k v = d := by
  unfold dictInsert
  rw [if_pos (dictContains_of_lookup_some d k v hv)]
  have hfix : ∀ p ∈ d, (if p.1 == k then (k, v) else p) = p := by
    intro p hp
    obtain ⟨a, b⟩ := p
    by_cases hpk : a = k
    · subst hpk
      have hlp := dictLookup_of_mem d (a, b) h hp
      rw [hv] at hlp
      have hv2 : v = b := by injection hlp
      simp [hv2]
    · simp [hpk]
  conv_rhs => rw [← List.map_id d]
  exact List.map_congr_left hfix

theorem restoreLoop_eq (d resp : Dict)
    (h : (d.map (fun p => p.1)).Nodup) :
    restoreLoop d resp = d := by
  unfold restoreLoop
  generalize (d.map fun p => p.1) = ks
  induction ks with
  | nil => rfl
  | cons k ks ih =>
    have hstep : (if dictContains resp k then d
        else match dictLookup d k with
          | some v => dictInsert d k v
          | none => d) = d := by
      by_cases hc : dictContains resp k
      · rw [if_pos hc]
      · rw [if_neg hc]
        cases hl : dictLookup d k with
        | none => rfl
        | some v => exact dictInsert_self d k v h hl
    simp only [List.foldl_cons]
    rw [hstep]
    exact ih

theorem mergeLoop_keys_nodup (resp : Dict) : ∀ d : Dict,
    (d.map (fun p => p.1)).Nodup →
    ((mergeLoop d resp).map (fun p => p.1)).Nodup := by
  induction resp with
  | nil => intro d h; exact h
  | cons p rest ih =>
    intro d h
    rw [mergeLoop_cons]
    exact ih _ (dictInsert_keys_nodup d p.1 p.2 h)

theorem authMergeCookies_eq_mergeLoop (old resp : Dict)
    (h : (old.map (fun p => p.1)).Nodup) :
    authMergeCookies old resp = mergeLoop old resp := by
  unfold authMergeCookies
  exact restoreLoop_eq _ resp (mergeLoop_keys_nodup resp old h)

theorem dictLookup_authMergeCookies (old resp : Dict) (k : String)
    (hold : (old.map (fun p => p.1)).Nodup)
    (hresp : (resp.map (fun p => p.1)).Nodup) :
    dictLookup (authMergeCookies old resp) k =
      (dictLookup resp k).or (dictLookup old k) := by
  rw [authMergeCookies_eq_mergeLoop old resp hold, dictLookup_mergeLoop,
    dictLookup_reverse resp k hresp]

end Cepik

namespace Cepik

/-! ## Decimal representation of the NF_WID clock value

`Nat.repr` (what Python's f-string produces for a nonnegative integer) is
related to a structurally recursive digit function so that the session
identifier can be parsed back and compared. -/

/-- Most-significant-first decimal digit characters of `n`, the reference
shape of `Nat.toDigits 10 n`. -/
def natChars (n : Nat) : List Char :=
  if _h : n < 10 then [Nat.digitChar n]
  else natChars (n / 10) ++ [Nat.digitChar (n % 10)]
decreasing_by exact Nat.div_lt_self (by omega) (by omega)

theorem toDigitsCore_eq_natChars :
    ∀ (fuel n : Nat) (acc : List Char), n < fuel →
    Nat.toDigitsCore 10 fuel n acc = natChars n ++ acc := by
  intro fuel
  induction fuel with
  | zero => intro n acc h; omega
  | succ f ih =>
    intro n acc h
    simp only [Nat.toDigitsCore]
    by_cases h10 : n / 10 = 0
    · have hn : n < 10 := by omega
      rw [if_pos h10, natChars, dif_pos hn, Nat.mod_eq_of_lt hn]
      rfl
    · have hn : ¬ n < 10 := by omega
      rw [if_neg h10, ih (n / 10) _ (by omega)]
      conv_rhs => rw [natChars, dif_neg hn]
      simp

theorem repr_eq_natChars (n : Nat) : Nat.repr n = (natChars n).asString := by
  unfold Nat.repr Nat.toDigits
  rw [toDigitsCore_eq_natChars (n + 1) n [] (by omega)]
  simp

/-- ASCII decimal digit test. -/
def isDigitChar (c : Char) : Bool := 48 ≤ c.toNat && c.toNat ≤ 57

/-- Numeric value of a most-significant-first decimal digit string. -/
def decodeChars (l : List Char) : Nat :=
  l.foldl (fun a c => a * 10 + (c.toNat - 48)) 0

theorem digitChar_toNat (d : Nat) (h : d < 10) :
    (Nat.digitChar d).toNat = 48 + d := by
  interval_cases d <;> rfl

theorem isDigitChar_digitChar (d : Nat) (h : d < 10) :
    isDigitChar (Nat.digitChar d) = true := by
  interval_cases d <;> rfl

theorem foldl_decode_append (l : List Char) (c : Char) (a : Nat) :
    (l ++ [c]).foldl (fun a c => a * 10 + (c.toNat - 48)) a =
      ((l.foldl (fun a c => a * 10 + (c.toNat - 48)) a) * 10 +
        (c.toNat - 48)) := by
  rw [List.foldl_append]
  rfl

theorem natChars_ne_nil (n : Nat) : natChars n ≠ [] := by
  rw [natChars]
  by_cases h : n < 10
  · rw [dif_pos h]; simp
  · rw [dif_neg h]; simp

theorem natChars_all_digits (n : Nat) :
    (natChars n).all isDigitChar = true := by
  induction n using Nat.strong_induction_on with
  | _ n ih =>
    rw [natChars]
    by_cases h : n < 10
    · rw [dif_pos h]
      simp [isDigitChar_digitChar n h]
    · rw [dif_neg h]
      rw [List.all_append]
      have h1 := ih (n / 10) (Nat.div_lt_self (by omega) (by omega))
      have h2 := isDigitChar_digitChar (n % 10) (by omega)
      simp [h1, h2]

theorem decodeChars_natChars (n : Nat) : decodeChars (natChars n) = n := by
  induction n using Nat.strong_induction_on with
  | _ n ih =>
    rw [natChars]
    by_cases h : n < 10
    · rw [dif_pos h]
      simp only [decodeChars, List.foldl_cons, List.foldl_nil]
      rw [digitChar_toNat n h]
      omega
    · rw [dif_neg h]
      have h1 := ih (n / 10) (Nat.div_lt_self (by omega) (by omega))
      simp only [decodeChars] at h1 ⊢
      rw [foldl_decode_append, h1, digitChar_toNat (n % 10) (by omega)]
      omega

/-- Decimal parse of a nonempty all-digit character list, `none` otherwise:
the `<integer>` part of the spec's `HistoriaPojazdu:<integer>` pattern. -/
def decimalValue (l : List Char) : Option Nat :=
  if l ≠ [] ∧ l.all isDigitChar then some (decodeChars l) else none

/-- Parse a session identifier against the spec pattern
`HistoriaPojazdu:<integer>`: `some` of the integer when the string has the
16-character literal prefix followed by a nonempty decimal numeral, `none`
otherwise. -/
def sessionIdNum (s : String) : Option Nat :=
  if s.data.take 16 = "HistoriaPojazdu:".data then
    decimalValue (s.data.drop 16)
  else none

theorem nfwidOf_data (t : Nat) :
    (nfwidOf t).data = "HistoriaPojazdu:".data ++ natChars t := by
  rw [nfwidOf, repr_eq_natChars, String.data_append]
  rfl

theorem sessionIdNum_nfwidOf (t : Nat) : sessionIdNum (nfwidOf t) = some t := by
  have hlen : ("HistoriaPojazdu:".data).length = 16 := by decide
  rw [sessionIdNum, nfwidOf_data, List.take_left' hlen, List.drop_left' hlen,
    if_pos rfl, decimalValue,
    if_pos ⟨natChars_ne_nil t, natChars_all_digits t⟩,
    decodeChars_natChars]

theorem nfwidOf_injective (t₁ t₂ : Nat) (h : nfwidOf t₁ = nfwidOf t₂) :
    t₁ = t₂ := by
  have h1 := sessionIdNum_nfwidOf t₁
  rw [h, sessionIdNum_nfwidOf t₂] at h1
  injection h1 with h2
  exact h2.symm

end Cepik

namespace Cepik

/-- A plain right-biased dictionary update, `old.update(new)` in Python:
every binding of `new` is written over `old`, `new` winning on conflicts.
This is the spec-side shape the two-phase merge of `authenticate_session`
is claimed to be equivalent to. -/
def dictUpdate (old new : Dict) : Dict :=
  new.foldl (fun acc p => dictInsert acc p.1 p.2) old

/-! ## Claim theorems -/

/-- C1: for every old cookie set and every HTTP-200 authentication response,
the cookie set `authenticate_session` hands back is the right-biased union
of old and response cookies — every key looks up to its response value when
the response names it, and to its old value otherwise — and on the spec's
example, old `{A:1, B:2}` merged with response `{B:3, C:4}` yields
`{A:1, B:3, C:4}`. -/
theorem cookie_merge_right_biased_union :
    (∀ (old : Dict) (nowMs : Nat) (resp : Response) (k : String),
      resp.status = 200 →
      (old.map (fun p => p.1)).Nodup →
      (resp.cookies.map (fun p => p.1)).Nodup →
      dictLookup (authenticate_session old nowMs resp).2.1 k =
        (dictLookup resp.cookies k).or (dictLookup old k))
    ∧ (authenticate_session [("A", "1"), ("B", "2")] 0
        ⟨200, [("B", "3"), ("C", "4")], []⟩).2.1 =
      [("A", "1"), ("B", "3"), ("C", "4")] := by
  constructor
  · intro old nowMs resp k h200 hold hresp
    simp only [authenticate_session, if_pos h200]
    exact dictLookup_authMergeCookies old resp.cookies k hold hresp
  · rfl

/-- C1 witness: the general conjunct of
`cookie_merge_right_biased_union` instantiated on the spec example, at each
of the keys `A` (kept from old), `B` (overwritten) and `C` (added). -/
theorem cookie_merge_right_biased_union_witness :
    dictLookup (authenticate_session [("A", "1"), ("B", "2")] 0
        ⟨200, [("B", "3"), ("C", "4")], []⟩).2.1 "A" =
      (dictLookup [("B", "3"), ("C", "4")] "A").or
        (dictLookup [("A", "1"), ("B", "2")] "A")
    ∧ dictLookup (authenticate_session [("A", "1"), ("B", "2")] 0
        ⟨200, [("B", "3"), ("C", "4")], []⟩).2.1 "B" =
      (dictLookup [("B", "3"), ("C", "4")] "B").or
        (dictLookup [("A", "1"), ("B", "2")] "B")
    ∧ dictLookup (authenticate_session [("A", "1"), ("B", "2")] 0
        ⟨200, [("B", "3"), ("C", "4")], []⟩).2.1 "C" =
      (dictLookup [("B", "3"), ("C", "4")] "C").or
        (dictLookup [("A", "1"), ("B", "2")] "C") :=
  ⟨cookie_merge_right_biased_union.1 [("A", "1"), ("B", "2")] 0
      ⟨200, [("B", "3"), ("C", "4")], []⟩ "A" rfl (by decide) (by decide),
   cookie_merge_right_biased_union.1 [("A", "1"), ("B", "2")] 0
      ⟨200, [("B", "3"), ("C", "4")], []⟩ "B" rfl (by decide) (by decide),
   cookie_merge_right_biased_union.1 [("A", "1"), ("B", "2")] 0
      ⟨200, [("B", "3"), ("C", "4")], []⟩ "C" rfl (by decide) (by decide)⟩

end Cepik

namespace Cepik

/-- C2: for every HTTP status other than 200, each of the five steps fails
with its own error kind of the spec taxonomy carrying that status code
(`SessionCreationError`, `AuthenticationError`, `FetchError` for both data
fetchers, `SessionClosureError`).  The data fetchers are taken at a cookie
set holding an XSRF token, since a run in which they receive an HTTP status
at all has passed the header construction. -/
theorem non_200_fails_with_taxonomy_error (sess : Dict) (nowMs : Nat)
    (nf_wid reg vin date xsrf : String) (resp : Response)
    (hst : resp.status ≠ 200)
    (hx : dictLookup sess "XSRF-TOKEN" = some xsrf) :
    (create_session resp).2 =
        .error (.raised (.sessionCreationError resp.status))
    ∧ (authenticate_session sess nowMs resp).2.2 =
        .error (.raised (.authenticationError resp.status))
    ∧ (get_vehicle_data sess nf_wid reg vin date resp).2 =
        .error (.raised (.fetchError resp.status))
    ∧ (get_timeline_data sess nf_wid reg vin date resp).2 =
        .error (.raised (.fetchError resp.status))
    ∧ (close_session sess nf_wid resp).2 =
        .error (.raised (.sessionClosureError resp.status)) := by
  refine ⟨?_, ?_, ?_, ?_, ?_⟩ <;>
    simp [create_session, authenticate_session, get_vehicle_data,
      get_timeline_data, close_session, hst, hx]

/-- C2 witness: `non_200_fails_with_taxonomy_error` at status 503 with a
one-cookie session. -/
theorem non_200_fails_with_taxonomy_error_witness :
    (create_session ⟨503, [], []⟩).2 =
        .error (.raised (.sessionCreationError 503))
    ∧ (authenticate_session [("XSRF-TOKEN", "tok")] 0 ⟨503, [], []⟩).2.2 =
        .error (.raised (.authenticationError 503))
    ∧ (get_vehicle_data [("XSRF-TOKEN", "tok")] "w" "r" "v" "d"
        ⟨503, [], []⟩).2 = .error (.raised (.fetchError 503))
    ∧ (get_timeline_data [("XSRF-TOKEN", "tok")] "w" "r" "v" "d"
        ⟨503, [], []⟩).2 = .error (.raised (.fetchError 503))
    ∧ (close_session [("XSRF-TOKEN", "tok")] "w" ⟨503, [], []⟩).2 =
        .error (.raised (.sessionClosureError 503)) :=
  non_200_fails_with_taxonomy_error [("XSRF-TOKEN", "tok")] 0 "w" "r" "v" "d"
    "tok" ⟨503, [], []⟩ (by decide) (by decide)

/-- C3: on an HTTP-200 response, each data fetcher returns the parsed JSON
body unchanged when its endpoint key (`technicalData` / `timelineData`) is
present, and fails with the `MissingFieldError` identifying that key when it
is absent, despite the 200 status. -/
theorem fetch_returns_body_or_missing_field (sess : Dict)
    (nf_wid reg vin date xsrf : String) (resp : Response)
    (hx : dictLookup sess "XSRF-TOKEN" = some xsrf)
    (h200 : resp.status = 200) :
    (jsonHas resp.jsonBody "technicalData" = true →
      (get_vehicle_data sess nf_wid reg vin date resp).2 = .ok resp.jsonBody)
    ∧ (jsonHas resp.jsonBody "technicalData" = false →
      (get_vehicle_data sess nf_wid reg vin date resp).2 =
        .error (.raised (.missingFieldError "technicalData")))
    ∧ (jsonHas resp.jsonBody "timelineData" = true →
      (get_timeline_data sess nf_wid reg vin date resp).2 = .ok resp.jsonBody)
    ∧ (jsonHas resp.jsonBody "timelineData" = false →
      (get_timeline_data sess nf_wid reg vin date resp).2 =
        .error (.raised (.missingFieldError "timelineData"))) := by
  refine ⟨fun hk => ?_, fun hk => ?_, fun hk => ?_, fun hk => ?_⟩ <;>
    simp [get_vehicle_data, get_timeline_data, hx, h200, hk]

/-- C3 witness: `fetch_returns_body_or_missing_field` on a 200 response
whose body holds `technicalData` but not `timelineData`. -/
theorem fetch_returns_body_or_missing_field_witness :
    (get_vehicle_data [("XSRF-TOKEN", "tok")] "w" "r" "v" "d"
        ⟨200, [], [("technicalData", Json.null)]⟩).2 =
      .ok [("technicalData", Json.null)]
    ∧ (get_timeline_data [("XSRF-TOKEN", "tok")] "w" "r" "v" "d"
        ⟨200, [], [("technicalData", Json.null)]⟩).2 =
      .error (.raised (.missingFieldError "timelineData")) :=
  ⟨(fetch_returns_body_or_missing_field [("XSRF-TOKEN", "tok")] "w" "r" "v"
      "d" "tok" ⟨200, [], [("technicalData", Json.null)]⟩ (by decide)
      rfl).1 (by decide),
   (fetch_returns_body_or_missing_field [("XSRF-TOKEN", "tok")] "w" "r" "v"
      "d" "tok" ⟨200, [], [("technicalData", Json.null)]⟩ (by decide)
      rfl).2.2.2 (by decide)⟩

/-- C4: the session identifier is generated once per `authenticate_session`
call from the observed clock value `t`: the single request sent carries
`NF_WID=HistoriaPojazdu:<t>` in its form body, the value returned on
HTTP 200 is that same string, the string parses back against the pattern
`HistoriaPojazdu:<integer>` with integer part exactly `t` (the wall-clock
milliseconds), and identifiers generated at later clock readings have a
non-decreasing integer part. -/
theorem session_identifier_form (old : Dict) (t : Nat) (resp : Response) :
    (resp.status = 200 →
      (authenticate_session old t resp).2.2 =
        .ok (authMergeCookies old resp.cookies, nfwidOf t))
    ∧ (authenticate_session old t resp).1 = [authRequest old (nfwidOf t)]
    ∧ (authRequest old (nfwidOf t)).body = .form ("NF_WID=" ++ nfwidOf t)
    ∧ sessionIdNum (nfwidOf t) = some t
    ∧ (∀ t' n n', t ≤ t' → sessionIdNum (nfwidOf t) = some n →
        sessionIdNum (nfwidOf t') = some n' → n ≤ n') := by
  refine ⟨fun h200 => ?_, ?_, rfl, sessionIdNum_nfwidOf t, ?_⟩
  · simp [authenticate_session, get_current_time, h200]
  · by_cases h : resp.status = 200 <;>
      simp [authenticate_session, get_current_time, h]
  · intro t' n n' hle hn hn'
    rw [sessionIdNum_nfwidOf] at hn hn'
    injection hn with h1
    injection hn' with h2
    omega

/-- C4 witness: `session_identifier_form` at clock reading 5, checked
against the later reading 7. -/
theorem session_identifier_form_witness :
    (authenticate_session [] 5 ⟨200, [], []⟩).2.2 =
        .ok (authMergeCookies [] [], nfwidOf 5)
    ∧ sessionIdNum (nfwidOf 5) = some 5
    ∧ 5 ≤ 7 :=
  ⟨(session_identifier_form [] 5 ⟨200, [], []⟩).1 rfl,
   (session_identifier_form [] 5 ⟨200, [], []⟩).2.2.2.1,
   (session_identifier_form [] 5 ⟨200, [], []⟩).2.2.2.2 7 5 7 (by decide)
     (by decide) (by decide)⟩

/-- C5: the NF_WID is a deterministic function of the millisecond clock
reading — two successful authentication calls observing equal readings
return the same identifier (whatever their cookie sets and responses), and
calls observing different readings return different identifiers. -/
theorem nfwid_deterministic_in_clock (old₁ old₂ : Dict) (t₁ t₂ : Nat)
    (r₁ r₂ : Response) (h₁ : r₁.status = 200) (h₂ : r₂.status = 200) :
    (t₁ = t₂ → authSessionId old₁ t₁ r₁ = authSessionId old₂ t₂ r₂)
    ∧ (t₁ ≠ t₂ → authSessionId old₁ t₁ r₁ ≠ authSessionId old₂ t₂ r₂) := by
  have e₁ : authSessionId old₁ t₁ r₁ = some (nfwidOf t₁) := by
    simp [authSessionId, authenticate_session, get_current_time, h₁]
  have e₂ : authSessionId old₂ t₂ r₂ = some (nfwidOf t₂) := by
    simp [authSessionId, authenticate_session, get_current_time, h₂]
  constructor
  · intro h
    subst h
    rw [e₁, e₂]
  · intro h hc
    rw [e₁, e₂] at hc
    injection hc with hs
    exact h (nfwidOf_injective t₁ t₂ hs)

/-- C5 witness: `nfwid_deterministic_in_clock` separates clock readings
1 and 2 even with different cookie sets. -/
theorem nfwid_deterministic_in_clock_witness :
    authSessionId [("A", "1")] 1 ⟨200, [], []⟩ ≠
      authSessionId [] 2 ⟨200, [("B", "2")], []⟩ :=
  (nfwid_deterministic_in_clock [("A", "1")] [] 1 2 ⟨200, [], []⟩
    ⟨200, [("B", "2")], []⟩ rfl rfl).2 (by decide)

end Cepik

namespace Cepik

/-- C6: given a cookie set with an XSRF-TOKEN entry, each data fetcher sends
exactly one POST — to its fixed endpoint URL — whose headers carry the XSRF
token verbatim from the cookie set and the session identifier, and whose
JSON body is exactly the three query fields. -/
theorem fetch_sends_single_post (sess : Dict)
    (nf_wid reg vin date xsrf : String) (resp : Response)
    (hx : dictLookup sess "XSRF-TOKEN" = some xsrf) :
    (get_vehicle_data sess nf_wid reg vin date resp).1 =
      [{ method := "POST", url := vehicleDataUrl,
         headers := [("Accept-Language", "pl-PL,pl;q=0.9"),
                     ("Content-Type", "application/json"),
                     ("X-Xsrf-Token", xsrf),
                     ("Nf_wid", nf_wid)],
         cookies := sess,
         body := .json [("registrationNumber", .str reg),
                        ("VINNumber", .str vin),
                        ("firstRegistrationDate", .str date)] }]
    ∧ (get_timeline_data sess nf_wid reg vin date resp).1 =
      [{ method := "POST", url := timelineDataUrl,
         headers := [("Accept-Language", "pl-PL,pl;q=0.9"),
                     ("Content-Type", "application/json"),
                     ("X-Xsrf-Token", xsrf),
                     ("Nf_wid", nf_wid)],
         cookies := sess,
         body := .json [("registrationNumber", .str reg),
                        ("VINNumber", .str vin),
                        ("firstRegistrationDate", .str date)] }] := by
  constructor <;>
    (simp only [get_vehicle_data, get_timeline_data, hx, queryBody]
     split_ifs <;> rfl)

/-- C6 witness: `fetch_sends_single_post` on a concrete session, query and
response. -/
theorem fetch_sends_single_post_witness :
    (get_vehicle_data [("XSRF-TOKEN", "tok")] "w" "r" "v" "d"
        ⟨200, [], []⟩).1 =
      [{ method := "POST", url := vehicleDataUrl,
         headers := [("Accept-Language", "pl-PL,pl;q=0.9"),
                     ("Content-Type", "application/json"),
                     ("X-Xsrf-Token", "tok"),
                     ("Nf_wid", "w")],
         cookies := [("XSRF-TOKEN", "tok")],
         body := .json [("registrationNumber", .str "r"),
                        ("VINNumber", .str "v"),
                        ("firstRegistrationDate", .str "d")] }]
    ∧ (get_timeline_data [("XSRF-TOKEN", "tok")] "w" "r" "v" "d"
        ⟨200, [], []⟩).1 =
      [{ method := "POST", url := timelineDataUrl,
         headers := [("Accept-Language", "pl-PL,pl;q=0.9"),
                     ("Content-Type", "application/json"),
                     ("X-Xsrf-Token", "tok"),
                     ("Nf_wid", "w")],
         cookies := [("XSRF-TOKEN", "tok")],
         body := .json [("registrationNumber", .str "r"),
                        ("VINNumber", .str "v"),
                        ("firstRegistrationDate", .str "d")] }] :=
  fetch_sends_single_post [("XSRF-TOKEN", "tok")] "w" "r" "v" "d" "tok"
    ⟨200, [], []⟩ (by decide)

/-- C8: the two-phase cookie merge of `authenticate_session` (copy every
response cookie in, then restore old keys absent from the response) equals
the plain right-biased dictionary update of the old set with the response
cookies, for every old Python dict (duplicate-free keys) and every response
cookie list: the restoration loop never changes the mapping. -/
theorem two_phase_merge_is_plain_update (old resp : Dict)
    (hold : (old.map (fun p => p.1)).Nodup) :
    authMergeCookies old resp = dictUpdate old resp :=
  authMergeCookies_eq_mergeLoop old resp hold

/-- C8 witness: `two_phase_merge_is_plain_update` on the spec's example
dictionaries. -/
theorem two_phase_merge_is_plain_update_witness :
    authMergeCookies [("A", "1"), ("B", "2")] [("B", "3"), ("C", "4")] =
      dictUpdate [("A", "1"), ("B", "2")] [("B", "3"), ("C", "4")] :=
  two_phase_merge_is_plain_update [("A", "1"), ("B", "2")]
    [("B", "3"), ("C", "4")] (by decide)

/-- C9: when the authentication POST comes back with any status other than
200, `authenticate_session` raises its `AuthenticationError` before touching
the cookies, leaving the caller's cookie dict exactly as it was. -/
theorem auth_failure_leaves_cookies_untouched (sess : Dict) (t : Nat)
    (resp : Response) (hst : resp.status ≠ 200) :
    (authenticate_session sess t resp).2.1 = sess
    ∧ (authenticate_session sess t resp).2.2 =
        .error (.raised (.authenticationError resp.status)) := by
  constructor <;> simp [authenticate_session, hst]

/-- C9 witness: `auth_failure_leaves_cookies_untouched` at status 500. -/
theorem auth_failure_leaves_cookies_untouched_witness :
    (authenticate_session [("A", "1")] 3 ⟨500, [("B", "2")], []⟩).2.1 =
      [("A", "1")]
    ∧ (authenticate_session [("A", "1")] 3 ⟨500, [("B", "2")], []⟩).2.2 =
        .error (.raised (.authenticationError 500)) :=
  auth_failure_leaves_cookies_untouched [("A", "1")] 3 ⟨500, [("B", "2")], []⟩
    (by decide)

/-- C10: on a cookie set without an XSRF-TOKEN entry, each data fetcher
stops with the Python `KeyError` from `session["XSRF-TOKEN"]` while building
headers: no request is sent (empty trace) and the failure is not any of the
five taxonomy errors. -/
theorem missing_xsrf_raises_keyerror (sess : Dict)
    (nf_wid reg vin date : String) (resp : Response)
    (hx : dictLookup sess "XSRF-TOKEN" = none) :
    get_vehicle_data sess nf_wid reg vin date resp =
        ([], .error (.keyError "XSRF-TOKEN"))
    ∧ get_timeline_data sess nf_wid reg vin date resp =
        ([], .error (.keyError "XSRF-TOKEN"))
    ∧ (∀ e : CepikError,
        (get_vehicle_data sess nf_wid reg vin date resp).2 ≠
          .error (.raised e))
    ∧ (∀ e : CepikError,
        (get_timeline_data sess nf_wid reg vin date resp).2 ≠
          .error (.raised e)) := by
  have h1 : get_vehicle_data sess nf_wid reg vin date resp =
      ([], .error (.keyError "XSRF-TOKEN")) := by
    simp [get_vehicle_data, hx]
  have h2 : get_timeline_data sess nf_wid reg vin date resp =
      ([], .error (.keyError "XSRF-TOKEN")) := by
    simp [get_timeline_data, hx]
  refine ⟨h1, h2, fun e habs => ?_, fun e habs => ?_⟩
  · rw [h1] at habs
    simp at habs
  · rw [h2] at habs
    simp at habs

/-- C10 witness: `missing_xsrf_raises_keyerror` on a session that has
cookies but no XSRF-TOKEN. -/
theorem missing_xsrf_raises_keyerror_witness :
    get_vehicle_data [("NFJSESSIONID", "x")] "w" "r" "v" "d" ⟨200, [], []⟩ =
        ([], .error (.keyError "XSRF-TOKEN"))
    ∧ (get_timeline_data [("NFJSESSIONID", "x")] "w" "r" "v" "d"
        ⟨200, [], []⟩).2 ≠
        .error (.raised (.fetchError 200)) :=
  ⟨(missing_xsrf_raises_keyerror [("NFJSESSIONID", "x")] "w" "r" "v" "d"
      ⟨200, [], []⟩ (by decide)).1,
   (missing_xsrf_raises_keyerror [("NFJSESSIONID", "x")] "w" "r" "v" "d"
      ⟨200, [], []⟩ (by decide)).2.2.2 (.fetchError 200)⟩

end Cepik

namespace Cepik

/-- C7 counterexample: a concrete end-to-end run in which every HTTP
response has status 200 and the vehicle-data body contains `technicalData`,
yet the fetch does not return the mapping — it dies with the `KeyError`
from `session["XSRF-TOKEN"]`, because no response ever set an XSRF-TOKEN
cookie (the claim's stated premises do not force one). -/
theorem happy_path_counterexample :
    (create_session ⟨200, [], []⟩).2 = .ok []
    ∧ (authenticate_session [] 1700000000000 ⟨200, [], []⟩).2.2 =
        .ok ([], nfwidOf 1700000000000)
    ∧ (get_vehicle_data [] (nfwidOf 1700000000000) "WA12345"
        "1HGCM82633A004352" "2020-01-01"
        ⟨200, [], [("technicalData", Json.null)]⟩).2 =
      .error (.keyError "XSRF-TOKEN") :=
  ⟨rfl, rfl, rfl⟩

/-- C7 (amended): in the end-to-end run Initiate → Authenticate → Fetch
vehicle data with the query
`{reg: WA12345, VIN: 1HGCM82633A004352, date: 2020-01-01}` → Close, where
every HTTP response has status 200, the vehicle-data body contains
`technicalData`, and — as the amendment — the cookie set merged from the
initiate and authenticate responses contains an XSRF-TOKEN entry, the fetch
returns the body (a mapping containing `technicalData`) and the close step
completes without raising. -/
theorem happy_path_run (r₁ r₂ rv rc : Response) (t : Nat) (xsrf : String)
    (h₁ : r₁.status = 200) (h₂ : r₂.status = 200) (hv : rv.status = 200)
    (hc : rc.status = 200)
    (hkey : jsonHas rv.jsonBody "technicalData" = true)
    (hx : dictLookup (authMergeCookies r₁.cookies r₂.cookies) "XSRF-TOKEN" =
      some xsrf) :
    (create_session r₁).2 = .ok r₁.cookies
    ∧ (authenticate_session r₁.cookies t r₂).2.2 =
        .ok (authMergeCookies r₁.cookies r₂.cookies, nfwidOf t)
    ∧ (get_vehicle_data (authMergeCookies r₁.cookies r₂.cookies) (nfwidOf t)
        "WA12345" "1HGCM82633A004352" "2020-01-01" rv).2 = .ok rv.jsonBody
    ∧ jsonHas rv.jsonBody "technicalData" = true
    ∧ (close_session (authMergeCookies r₁.cookies r₂.cookies) (nfwidOf t)
        rc).2 = .ok () := by
  refine ⟨?_, ?_, ?_, hkey, ?_⟩ <;>
    simp [create_session, authenticate_session, get_current_time,
      get_vehicle_data, close_session, h₁, h₂, hv, hc, hkey, hx]

/-- C7 witness: `happy_path_run` on a concrete scenario where the initiate
response sets the XSRF-TOKEN cookie. -/
theorem happy_path_run_witness :
    (create_session ⟨200, [("XSRF-TOKEN", "tok")], []⟩).2 =
        .ok [("XSRF-TOKEN", "tok")]
    ∧ (authenticate_session [("XSRF-TOKEN", "tok")] 5 ⟨200, [], []⟩).2.2 =
        .ok (authMergeCookies [("XSRF-TOKEN", "tok")] [], nfwidOf 5)
    ∧ (get_vehicle_data (authMergeCookies [("XSRF-TOKEN", "tok")] [])
        (nfwidOf 5) "WA12345" "1HGCM82633A004352" "2020-01-01"
        ⟨200, [], [("technicalData", Json.null)]⟩).2 =
      .ok [("technicalData", Json.null)]
    ∧ jsonHas [("technicalData", Json.null)] "technicalData" = true
    ∧ (close_session (authMergeCookies [("XSRF-TOKEN", "tok")] [])
        (nfwidOf 5) ⟨200, [], []⟩).2 = .ok () :=
  happy_path_run ⟨200, [("XSRF-TOKEN", "tok")], []⟩ ⟨200, [], []⟩
    ⟨200, [], [("technicalData", Json.null)]⟩ ⟨200, [], []⟩ 5 "tok" rfl rfl
    rfl rfl (by decide) (by decide)

end Cepik
